import Mathlib

/-!
Verification of the example agent script (`app/agent.py`).

The script defines four mock tools (`get_weather`, `get_current_time`,
`get_equipment_state`, `get_error_logs`) and a flat conditional on the
constant `ENABLE_SUGGESTIONS_TESTING` that selects one of two
(instruction text, tool list) profiles.

Embedding conventions:
- Python strings become Lean `String`s (apostrophes and braces are written
  with `\xNN` escapes, same characters).
- `random.choice` over a list of `k` candidates becomes an explicit
  `Fin k` argument; `random.randint(0, 3)` (inclusive on both ends)
  becomes a `Fin 4` argument; the per-element `random.choice` inside a
  comprehension becomes a function `Nat → Fin 3` giving the draw at each
  index.
- The wall clock (`datetime.datetime.now`) becomes an explicit parameter:
  an `Int` count of seconds for the UTC clock used by `get_error_logs`
  (so `timedelta(hours=i)` is `3600 * i`), and a broken-down
  `LATime` record for the America/Los_Angeles clock used by
  `get_current_time`, whose `strftime` rendering is modelled by
  `strftimeChars`.
- Python dicts with a fixed key set become Lean structures; the
  equipment-state dicts, whose key sets differ between candidates, become
  association lists `List (String × FieldVal)` in source order.
-/

/-- The module-level constant `ENABLE_SUGGESTIONS_TESTING` from the source
(set to `False` in the file). -/
def ENABLE_SUGGESTIONS_TESTING : Bool := false

/-- Executable substring test: `containsSub s pat` is `true` iff `pat`
occurs contiguously in `s`, modelling Python's `pat in s`. -/
def containsSub (s pat : String) : Bool :=
  (List.range (s.data.length + 1)).any fun i =>
    (s.data.drop i).take pat.data.length == pat.data

/-- Model of Python's `str.lower()`: lower-case every character. -/
def strToLower (s : String) : String := String.mk (s.data.map Char.toLower)

/-- `get_weather` from the source: lower-cases the query, checks for the
substrings `"sf"` and `"san francisco"`, and returns one of two fixed
strings. -/
def get_weather (query : String) : String :=
  if containsSub (strToLower query) "sf" || containsSub (strToLower query) "san francisco" then
    "It\x27s 60 degrees and foggy."
  else
    "It\x27s 90 degrees and sunny."

/-- A broken-down America/Los_Angeles wall-clock reading, the argument of
the modelled `strftime('%Y-%m-%d %H:%M:%S %Z%z')` call in
`get_current_time`. -/
structure LATime where
  year : Nat
  month : Nat
  day : Nat
  hour : Nat
  minute : Nat
  second : Nat
  tzAbbrev : String
  tzOffset : String

/-- The decimal digit character of `n % 10`. -/
def digitChar (n : Nat) : Char := Char.ofNat (48 + n % 10)

/-- Two-digit zero-padded decimal rendering (for `n ≤ 99`), as in
`strftime`'s `%m`, `%d`, `%H`, `%M`, `%S`. -/
def pad2Chars (n : Nat) : List Char := [digitChar (n / 10), digitChar n]

/-- Four-digit zero-padded decimal rendering (for `n ≤ 9999`), as in
`strftime`'s `%Y`. -/
def pad4Chars (n : Nat) : List Char :=
  [digitChar (n / 1000), digitChar (n / 100), digitChar (n / 10), digitChar n]

/-- Model of `now.strftime('%Y-%m-%d %H:%M:%S %Z%z')` on a broken-down
time: zero-padded date and time fields, a space, the timezone
abbreviation, then the UTC offset. -/
def strftimeChars (t : LATime) : List Char :=
  pad4Chars t.year ++ '-' :: pad2Chars t.month ++ '-' :: pad2Chars t.day ++
  ' ' :: pad2Chars t.hour ++ ':' :: pad2Chars t.minute ++ ':' :: pad2Chars t.second ++
  ' ' :: t.tzAbbrev.data ++ t.tzOffset.data

/-- `get_current_time` from the source, with the wall clock passed
explicitly: on a San-Francisco match it formats the current
America/Los_Angeles time, otherwise it returns the fixed apology with the
query substituted. -/
def get_current_time (query : String) (now : LATime) : String :=
  if containsSub (strToLower query) "sf" || containsSub (strToLower query) "san francisco" then
    "The current time for query " ++ query ++ " is " ++ String.mk (strftimeChars now)
  else
    "Sorry, I don\x27t have timezone information for query: " ++ query ++ "."

/-- A JSON-serializable field value as it appears in the equipment-state
dicts: a string, a number, or a list of strings. -/
inductive FieldVal where
  | vstr (s : String)
  | vnum (q : Rat)
  | vlist (xs : List String)
deriving DecidableEq

/-- The four candidate state dicts of `get_equipment_state`, in source
order, with their exact keys and values. -/
def equipmentStates (equipment_id : String) : List (List (String × FieldVal)) :=
  [ [("equipment_id", .vstr equipment_id), ("status", .vstr "running"),
     ("state", .vstr "normal_operation"), ("temperature_celsius", .vnum 45.2),
     ("pressure_psi", .vnum 120.0), ("alerts", .vlist [])],
    [("equipment_id", .vstr equipment_id), ("status", .vstr "maintenance"),
     ("state", .vstr "maintenance_mode"), ("temperature_celsius", .vnum 25.0),
     ("alerts", .vlist ["scheduled_maintenance"])],
    [("equipment_id", .vstr equipment_id), ("status", .vstr "warning"),
     ("state", .vstr "high_temperature"), ("temperature_celsius", .vnum 78.5),
     ("alerts", .vlist ["temperature_warning", "pressure_elevated"])],
    [("equipment_id", .vstr equipment_id), ("status", .vstr "error"),
     ("state", .vstr "fault"), ("temperature_celsius", .vnum 95.0),
     ("alerts", .vlist ["critical_fault"]), ("error_code", .vstr "E503")] ]

/-- `get_equipment_state` from the source: `random.choice` over the four
candidate dicts, with the draw made explicit as a `Fin 4` index.  The
returned value is the chosen JSON object (the `json.dumps` serialization
is external). -/
def get_equipment_state (equipment_id : String) (choice : Fin 4) :
    List (String × FieldVal) :=
  (equipmentStates equipment_id).get ⟨choice.val, choice.isLt⟩

/-- One entry of the `logs` array built by `get_error_logs`: the
timestamp (seconds, UTC), the equipment id, and the spread error triple. -/
structure LogEntry where
  timestamp : Int
  equipment_id : String
  code : String
  severity : String
  message : String
deriving DecidableEq

/-- The top-level JSON object returned by `get_error_logs`. -/
structure ErrorLogsResult where
  equipment_id : String
  total_errors : Nat
  logs : List LogEntry
deriving DecidableEq

/-- The three candidate error triples of `get_error_logs`, in source
order. -/
def errorCandidates : List (String × String × String) :=
  [("E404", "warning", "Sensor timeout"),
   ("E500", "error", "System error"),
   ("E503", "critical", "Motor overheating")]

/-- The `logs` list comprehension of `get_error_logs`: for each
`i < n`, the timestamp is `now` minus `i` hours (3600 seconds each) and
the error triple is the `pick i`-th candidate. -/
def errorLogsEntries (equipment_id : String) (now : Int) (pick : Nat → Fin 3)
    (n : Fin 4) : List LogEntry :=
  (List.range n.val).map fun i =>
    let e := errorCandidates.get ⟨(pick i).val, (pick i).isLt⟩
    { timestamp := now - 3600 * i, equipment_id := equipment_id,
      code := e.1, severity := e.2.1, message := e.2.2 }

/-- `get_error_logs` from the source, with the random draws and the UTC
clock passed explicitly: `hours` is the accepted-but-unread lookback
parameter, `n` models `random.randint(0, 3)` and `pick` the per-entry
`random.choice(errors)`. -/
def get_error_logs (equipment_id : String) (hours : Int) (now : Int)
    (pick : Nat → Fin 3) (n : Fin 4) : ErrorLogsResult :=
  { equipment_id := equipment_id,
    total_errors := (errorLogsEntries equipment_id now pick n).length,
    logs := errorLogsEntries equipment_id now pick n }

/-- The diagnostic-mode instruction string of the source, verbatim
(braces and the mojibake degree sign written as character escapes). -/
def diagnosticInstruction : String :=
  "You are a diagnostic assistant helping troubleshoot equipment.\n\nWhen users ask about equipment:\n1. Call the appropriate diagnostic tool (get_equipment_state, get_error_logs)\n2. After receiving tool results, ask a specific follow-up question based on the data\n3. Reference actual values from the tool response in your question\n\nExamples:\n- \"I see pump-1 is in \x7bstate\x7d. What would you like to check next?\"\n- \"The temperature is at \x7btemp\x7d\xC2\xB0C. Is this normal for this equipment?\"\n- \"I found \x7bcount\x7d errors. Which one should we investigate?\"\n\nAlways ask clear questions after calling tools to help guide troubleshooting."

/-- The basic-mode instruction string of the source, verbatim. -/
def basicInstruction : String :=
  "You are a helpful AI assistant designed to provide accurate and useful information."

/-- The module-level `if ENABLE_SUGGESTIONS_TESTING: ... else: ...` of the
source, as a function of the flag: it yields the pair
(`agent_instruction`, `agent_tools`), with the tools listed by their
source function names in source order. -/
def selectProfile (flag : Bool) : String × List String :=
  if flag then
    (diagnosticInstruction,
     ["get_weather", "get_current_time", "get_equipment_state", "get_error_logs"])
  else
    (basicInstruction, ["get_weather", "get_current_time"])

/-- The `agent_instruction` variable set by the module-level conditional. -/
def agent_instruction (flag : Bool) : String := (selectProfile flag).1

/-- The `agent_tools` variable set by the module-level conditional. -/
def agent_tools (flag : Bool) : List String := (selectProfile flag).2

/-- Claim C1: with the flag off the profile is the generic
helpful-assistant instruction with exactly the tools get_weather and
get_current_time; with the flag on it is the diagnostic-guidance
instruction with exactly get_weather, get_current_time,
get_equipment_state, get_error_logs, in that order. -/
theorem profile_selection_two_outcomes :
    selectProfile false =
      ("You are a helpful AI assistant designed to provide accurate and useful information.",
       ["get_weather", "get_current_time"]) ∧
    selectProfile true =
      ("You are a diagnostic assistant helping troubleshoot equipment.\n\nWhen users ask about equipment:\n1. Call the appropriate diagnostic tool (get_equipment_state, get_error_logs)\n2. After receiving tool results, ask a specific follow-up question based on the data\n3. Reference actual values from the tool response in your question\n\nExamples:\n- \"I see pump-1 is in \x7bstate\x7d. What would you like to check next?\"\n- \"The temperature is at \x7btemp\x7d\xC2\xB0C. Is this normal for this equipment?\"\n- \"I found \x7bcount\x7d errors. Which one should we investigate?\"\n\nAlways ask clear questions after calling tools to help guide troubleshooting.",
       ["get_weather", "get_current_time", "get_equipment_state", "get_error_logs"]) :=
  ⟨rfl, rfl⟩

/-- Claim C2: profile selection is a pure, deterministic function of the
flag: two evaluations at equal flag values give byte-identical
instruction text and identical tool-name lists. -/
theorem profile_selection_deterministic (f1 f2 : Bool) (h : f1 = f2) :
    (selectProfile f1).1 = (selectProfile f2).1 ∧
    (selectProfile f1).2 = (selectProfile f2).2 := by
  subst h; exact ⟨rfl, rfl⟩

/-- Witness for C2 at the concrete flag value `false`. -/
theorem profile_selection_deterministic_witness :
    (selectProfile false).1 = (selectProfile false).1 ∧
    (selectProfile false).2 = (selectProfile false).2 :=
  profile_selection_deterministic false false rfl

/-- Claim C5: for every random draw, `get_equipment_state "pump-1"`
returns an object whose `equipment_id` is `"pump-1"`, whose `status` is
one of running/maintenance/warning/error, and whose key set is exactly
the fixed companion-field set of its status. -/
theorem equipment_state_shape : ∀ choice : Fin 4,
    (get_equipment_state "pump-1" choice).lookup "equipment_id" =
      some (FieldVal.vstr "pump-1") ∧
    (get_equipment_state "pump-1" choice).lookup "status" ∈
      [some (FieldVal.vstr "running"), some (FieldVal.vstr "maintenance"),
       some (FieldVal.vstr "warning"), some (FieldVal.vstr "error")] ∧
    ((get_equipment_state "pump-1" choice).lookup "status" =
        some (FieldVal.vstr "running") →
      (get_equipment_state "pump-1" choice).map Prod.fst =
        ["equipment_id", "status", "state", "temperature_celsius",
         "pressure_psi", "alerts"]) ∧
    ((get_equipment_state "pump-1" choice).lookup "status" =
        some (FieldVal.vstr "maintenance") →
      (get_equipment_state "pump-1" choice).map Prod.fst =
        ["equipment_id", "status", "state", "temperature_celsius", "alerts"]) ∧
    ((get_equipment_state "pump-1" choice).lookup "status" =
        some (FieldVal.vstr "warning") →
      (get_equipment_state "pump-1" choice).map Prod.fst =
        ["equipment_id", "status", "state", "temperature_celsius", "alerts"]) ∧
    ((get_equipment_state "pump-1" choice).lookup "status" =
        some (FieldVal.vstr "error") →
      (get_equipment_state "pump-1" choice).map Prod.fst =
        ["equipment_id", "status", "state", "temperature_celsius", "alerts",
         "error_code"]) := by
  decide

/-- Witness for C5: at the first draw the status is `running` and the key
set is the running companion set. -/
theorem equipment_state_shape_witness :
    (get_equipment_state "pump-1" 0).map Prod.fst =
      ["equipment_id", "status", "state", "temperature_celsius",
       "pressure_psi", "alerts"] :=
  (equipment_state_shape 0).2.2.1 (by decide)

/-- Claim C8: `get_error_logs` is independent of its `hours` argument:
with the same random draws and clock reading, any two `hours` values give
the same result. -/
theorem error_logs_hours_independent (id : String) (h1 h2 now : Int)
    (pick : Nat → Fin 3) (n : Fin 4) :
    get_error_logs id h1 now pick n = get_error_logs id h2 now pick n := rfl

/-- Claim C9: for every equipment id and random draw, the object returned
by `get_equipment_state` carries `equipment_id` equal to the argument,
and every log entry of `get_error_logs` carries `equipment_id` equal to
its argument. -/
theorem equipment_id_propagated (id : String) (choice : Fin 4)
    (hours now : Int) (pick : Nat → Fin 3) (n : Fin 4) :
    (get_equipment_state id choice).lookup "equipment_id" =
      some (FieldVal.vstr id) ∧
    (get_error_logs id hours now pick n).logs.all
      (fun e => e.equipment_id == id) = true := by
  constructor
  · fin_cases choice <;> rfl
  · simp [get_error_logs, errorLogsEntries, List.all_eq_true]

/-- Claim C10: the logs array of `get_error_logs` has length at most 3,
and `total_errors` never exceeds 3. -/
theorem error_logs_bounded (id : String) (hours now : Int)
    (pick : Nat → Fin 3) (n : Fin 4) :
    (get_error_logs id hours now pick n).logs.length ≤ 3 ∧
    (get_error_logs id hours now pick n).total_errors ≤ 3 := by
  have hn := n.isLt
  simp [get_error_logs, errorLogsEntries]
  omega

/-- Every triple read back out of `errorCandidates` is a member of
`errorCandidates`. -/
theorem errorCandidates_contains : ∀ p : Fin 3,
    errorCandidates.contains
      ((errorCandidates.get ⟨p.val, p.isLt⟩).1,
       (errorCandidates.get ⟨p.val, p.isLt⟩).2.1,
       (errorCandidates.get ⟨p.val, p.isLt⟩).2.2) = true := by
  decide

/-- Claim C6: for every random draw and clock reading, `get_error_logs`
returns `total_errors` equal to the length of `logs`, timestamps exactly
one hour (3600 seconds) older per index counting back from `now` — hence
strictly decreasing in the index — and every entry's code/severity/message
triple is one of the three fixed candidates. -/
theorem error_logs_shape (id : String) (hours now : Int)
    (pick : Nat → Fin 3) (n : Fin 4) :
    (get_error_logs id hours now pick n).total_errors =
      (get_error_logs id hours now pick n).logs.length ∧
    (∀ i (hi : i < (get_error_logs id hours now pick n).logs.length),
      ((get_error_logs id hours now pick n).logs.get ⟨i, hi⟩).timestamp =
        now - 3600 * i) ∧
    (∀ i j (hi : i < (get_error_logs id hours now pick n).logs.length)
        (hj : j < (get_error_logs id hours now pick n).logs.length), i < j →
      ((get_error_logs id hours now pick n).logs.get ⟨j, hj⟩).timestamp <
        ((get_error_logs id hours now pick n).logs.get ⟨i, hi⟩).timestamp) ∧
    (get_error_logs id hours now pick n).logs.all
      (fun e => errorCandidates.contains (e.code, e.severity, e.message)) = true := by
  have hts : ∀ i (hi : i < (get_error_logs id hours now pick n).logs.length),
      ((get_error_logs id hours now pick n).logs.get ⟨i, hi⟩).timestamp =
        now - 3600 * i := by
    intro i hi
    simp [get_error_logs, errorLogsEntries, List.get_eq_getElem]
  refine ⟨rfl, hts, ?_, ?_⟩
  · intro i j hi hj hij
    rw [hts i hi, hts j hj]
    omega
  · simp only [get_error_logs, errorLogsEntries, List.all_eq_true, List.mem_map,
      List.mem_range, forall_exists_index, and_imp]
    intro e i hi he
    subst he
    exact errorCandidates_contains (pick i)

/-- Witness for C6 at a concrete draw: with three entries, the entry at
index 1 is strictly older than the entry at index 0. -/
theorem error_logs_shape_witness :
    ((get_error_logs "pump-1" 24 0 (fun _ => 0) 3).logs.get ⟨1, by decide⟩).timestamp <
      ((get_error_logs "pump-1" 24 0 (fun _ => 0) 3).logs.get ⟨0, by decide⟩).timestamp :=
  (error_logs_shape "pump-1" 24 0 (fun _ => 0) 3).2.2.1 0 1 (by decide) (by decide)
    (by decide)

/-- Correctness of the executable substring test: `containsSub s pat`
holds exactly when `pat`'s characters occur contiguously in `s`'s. -/
theorem containsSub_iff (s pat : String) :
    containsSub s pat = true ↔ ∃ l r, s.data = l ++ pat.data ++ r := by
  unfold containsSub
  rw [List.any_eq_true]
  constructor
  · rintro ⟨i, hmem, hcond⟩
    rw [beq_iff_eq] at hcond
    refine ⟨s.data.take i, (s.data.drop i).drop pat.data.length, ?_⟩
    conv_lhs => rw [← List.take_append_drop i s.data]
    rw [List.append_assoc]
    congr 1
    conv_lhs => rw [← List.take_append_drop pat.data.length (s.data.drop i)]
    rw [hcond]
  · rintro ⟨l, r, h⟩
    refine ⟨l.length, ?_, ?_⟩
    · rw [List.mem_range]
      have hlen : s.data.length = l.length + (pat.data.length + r.length) := by
        rw [h]; simp [List.length_append]
      omega
    · rw [beq_iff_eq, h, List.append_assoc, List.drop_left, List.take_left]

/-- Case-insensitive containment, stated as the spec phrases it: the
pattern occurs as a contiguous substring of the lower-cased input. -/
def ContainsCI (s pat : String) : Prop :=
  ∃ l r, (strToLower s).data = l ++ pat.data ++ r

/-- The spec-side containment predicate agrees with the executable test
the tools branch on. -/
theorem ContainsCI_iff (s pat : String) :
    ContainsCI s pat ↔ containsSub (strToLower s) pat = true :=
  (containsSub_iff (strToLower s) pat).symm

/-- Claim C3: a query containing `"sf"` or `"san francisco"`
case-insensitively gets the fixed foggy answer from `get_weather`, every
other query gets the fixed sunny answer. -/
theorem weather_by_location (q : String) :
    ((ContainsCI q "sf" ∨ ContainsCI q "san francisco") →
      get_weather q = "It\x27s 60 degrees and foggy.") ∧
    (¬(ContainsCI q "sf" ∨ ContainsCI q "san francisco") →
      get_weather q = "It\x27s 90 degrees and sunny.") := by
  constructor
  · intro h
    have hb : (containsSub (strToLower q) "sf" ||
        containsSub (strToLower q) "san francisco") = true := by
      rcases h with h | h
      · rw [ContainsCI_iff] at h; simp [h]
      · rw [ContainsCI_iff] at h; simp [h]
    simp [get_weather, hb]
  · intro h
    have h1 : containsSub (strToLower q) "sf" = false := by
      cases hc : containsSub (strToLower q) "sf"
      · rfl
      · exact absurd (Or.inl ((ContainsCI_iff q "sf").mpr hc)) h
    have h2 : containsSub (strToLower q) "san francisco" = false := by
      cases hc : containsSub (strToLower q) "san francisco"
      · rfl
      · exact absurd (Or.inr ((ContainsCI_iff q "san francisco").mpr hc)) h
    simp [get_weather, h1, h2]

/-- Witness for C3 at the concrete queries `"SF"` and `"London"`. -/
theorem weather_by_location_witness :
    get_weather "SF" = "It\x27s 60 degrees and foggy." ∧
    get_weather "London" = "It\x27s 90 degrees and sunny." :=
  ⟨(weather_by_location "SF").1 (Or.inl ⟨[], [], by decide⟩),
   (weather_by_location "London").2 (by
     rw [ContainsCI_iff, ContainsCI_iff]
     decide)⟩

/-- Checks a UTC offset as `%z` renders it: a sign followed by exactly
four digits. -/
def offOk : List Char → Bool
  | sign :: a :: b :: c :: d :: [] =>
    (sign == '+' || sign == '-') && a.isDigit && b.isDigit && c.isDigit && d.isDigit
  | _ => false

/-- Checks the trailing `%Z%z` part of the timestamp: a nonempty
alphabetic timezone abbreviation followed by a signed four-digit offset. -/
def tzOffOk (cs : List Char) : Bool :=
  !(cs.takeWhile Char.isAlpha).isEmpty && offOk (cs.dropWhile Char.isAlpha)

/-- Checks the `YYYY-MM-DD HH:MM:SS <tz-abbrev><offset>` shape the spec
requires of the time tool's timestamp. -/
def isTimestampFormat : List Char → Bool
  | y1 :: y2 :: y3 :: y4 :: s1 :: mo1 :: mo2 :: s2 :: d1 :: d2 :: sp1 ::
      h1 :: h2 :: c1 :: mi1 :: mi2 :: c2 :: se1 :: se2 :: sp2 :: rest =>
    y1.isDigit && y2.isDigit && y3.isDigit && y4.isDigit && s1 == '-' &&
    mo1.isDigit && mo2.isDigit && s2 == '-' && d1.isDigit && d2.isDigit &&
    sp1 == ' ' && h1.isDigit && h2.isDigit && c1 == ':' && mi1.isDigit &&
    mi2.isDigit && c2 == ':' && se1.isDigit && se2.isDigit && sp2 == ' ' &&
    tzOffOk rest
  | _ => false

/-- A well-formed America/Los_Angeles broken-down time: in-range fields
and one of the two abbreviation/offset pairs of that zone (standard or
daylight time). -/
def validLATime (t : LATime) : Prop :=
  ((t.tzAbbrev = "PST" ∧ t.tzOffset = "-0800") ∨
   (t.tzAbbrev = "PDT" ∧ t.tzOffset = "-0700")) ∧
  t.year ≤ 9999 ∧ 1 ≤ t.month ∧ t.month ≤ 12 ∧ 1 ≤ t.day ∧ t.day ≤ 31 ∧
  t.hour ≤ 23 ∧ t.minute ≤ 59 ∧ t.second ≤ 59

/-- `digitChar` always yields a decimal digit character. -/
theorem digitChar_isDigit (n : Nat) : (digitChar n).isDigit = true := by
  unfold digitChar
  have h : n % 10 < 10 := Nat.mod_lt _ (by norm_num)
  revert h
  generalize n % 10 = m
  intro h
  interval_cases m <;> decide

/-- The modelled `strftime` rendering of a well-formed
America/Los_Angeles time has the required timestamp shape. -/
theorem strftime_formatted (t : LATime) (hv : validLATime t) :
    isTimestampFormat (strftimeChars t) = true := by
  obtain ⟨htz, -⟩ := hv
  have hP : ("PST" : String).data = ['P', 'S', 'T'] := rfl
  have hD : ("PDT" : String).data = ['P', 'D', 'T'] := rfl
  have h8 : ("-0800" : String).data = ['-', '0', '8', '0', '0'] := rfl
  have h7 : ("-0700" : String).data = ['-', '0', '7', '0', '0'] := rfl
  rcases htz with ⟨ha, ho⟩ | ⟨ha, ho⟩ <;>
    simp +decide [strftimeChars, pad4Chars, pad2Chars, ha, ho, hP, hD, h8, h7,
      isTimestampFormat, tzOffOk, offOk, digitChar_isDigit, List.takeWhile,
      List.dropWhile]

/-- Claim C4: on a San-Francisco query, `get_current_time` (given a
well-formed America/Los_Angeles clock reading) returns a string
containing a `YYYY-MM-DD HH:MM:SS <tz-abbrev><offset>` timestamp; on any
other query it returns exactly the apology with the query substituted. -/
theorem time_by_location (q : String) (now : LATime) (hv : validLATime now) :
    ((ContainsCI q "sf" ∨ ContainsCI q "san francisco") →
      ∃ l ts r, isTimestampFormat ts = true ∧
        (get_current_time q now).data = l ++ ts ++ r) ∧
    (¬(ContainsCI q "sf" ∨ ContainsCI q "san francisco") →
      get_current_time q now =
        "Sorry, I don\x27t have timezone information for query: " ++ q ++ ".") := by
  constructor
  · intro h
    have hb : (containsSub (strToLower q) "sf" ||
        containsSub (strToLower q) "san francisco") = true := by
      rcases h with h | h
      · rw [ContainsCI_iff] at h; simp [h]
      · rw [ContainsCI_iff] at h; simp [h]
    refine ⟨("The current time for query " ++ q ++ " is ").data,
      strftimeChars now, [], strftime_formatted now hv, ?_⟩
    simp [get_current_time, hb]
  · intro h
    have h1 : containsSub (strToLower q) "sf" = false := by
      cases hc : containsSub (strToLower q) "sf"
      · rfl
      · exact absurd (Or.inl ((ContainsCI_iff q "sf").mpr hc)) h
    have h2 : containsSub (strToLower q) "san francisco" = false := by
      cases hc : containsSub (strToLower q) "san francisco"
      · rfl
      · exact absurd (Or.inr ((ContainsCI_iff q "san francisco").mpr hc)) h
    simp [get_current_time, h1, h2]

/-- Witness for C4 at a concrete clock reading and the queries `"sf"`
and `"Paris"`. -/
theorem time_by_location_witness :
    (∃ l ts r, isTimestampFormat ts = true ∧
      (get_current_time "sf" ⟨2024, 1, 2, 3, 4, 5, "PST", "-0800"⟩).data =
        l ++ ts ++ r) ∧
    get_current_time "Paris" ⟨2024, 1, 2, 3, 4, 5, "PST", "-0800"⟩ =
      "Sorry, I don\x27t have timezone information for query: " ++ "Paris" ++ "." :=
  ⟨(time_by_location "sf" ⟨2024, 1, 2, 3, 4, 5, "PST", "-0800"⟩ (by unfold validLATime; decide)).1

    (Or.inl ⟨[], [], by decide⟩),
   (time_by_location "Paris" ⟨2024, 1, 2, 3, 4, 5, "PST", "-0800"⟩ (by unfold validLATime; decide)).2
    (by rw [ContainsCI_iff, ContainsCI_iff]; decide)⟩

/-- Modelled from the spec: an argument value passed to a tool (the
repository has no Tool Registry code; §4.1 and §6 describe tools taking
a primary string argument plus an optional bounded integer). -/
inductive ArgValue where
  | strVal (s : String)
  | intVal (n : Int)
deriving DecidableEq

/-- Modelled from the spec: the declared type name of an argument value,
used to check an argument against the declared spec. -/
def argTypeName : ArgValue → String
  | .strVal _ => "string"
  | .intVal _ => "integer"

/-- Modelled from the spec: the error taxonomy of §7 for the Tool
Registry operations. -/
inductive ToolError where
  | duplicateToolError (name : String)
  | unknownToolError (name : String)
  | invalidArgumentError (name : String)
deriving DecidableEq

/-- Modelled from the spec: a registered tool, an argument spec of
name/type pairs together with the handler `(args) -> result`. -/
structure ToolEntry where
  argumentSpec : List (String × String)
  handler : List (String × ArgValue) → String

/-- Modelled from the spec: the Tool Registry §4.1, a mapping from tool
name to callable implementation with its declared argument contract. -/
structure ToolRegistry where
  tools : List (String × ToolEntry)

/-- Modelled from the spec: `args` satisfy the declared spec when every
declared field is present with its declared type. -/
def validArgs (spec : List (String × String)) (args : List (String × ArgValue)) : Bool :=
  spec.all fun p =>
    match args.lookup p.1 with
    | some v => argTypeName v == p.2
    | none => false

/-- Modelled from the spec: `register(name, argument_spec, handler)` adds
a tool and fails with a duplicate-tool error if the name is already
present. -/
def register (reg : ToolRegistry) (name : String) (spec : List (String × String))
    (handler : List (String × ArgValue) → String) : Except ToolError ToolRegistry :=
  if (reg.tools.lookup name).isSome then
    .error (.duplicateToolError name)
  else
    .ok ⟨reg.tools ++ [(name, ⟨spec, handler⟩)]⟩

/-- Modelled from the spec: `invoke(name, args)` looks up and calls the
handler, failing with an unknown-tool error if the name is absent and
with an invalid-argument error if the args violate the declared spec. -/
def invoke (reg : ToolRegistry) (name : String) (args : List (String × ArgValue)) :
    Except ToolError String :=
  match reg.tools.lookup name with
  | none => .error (.unknownToolError name)
  | some entry =>
    if validArgs entry.argumentSpec args then .ok (entry.handler args)
    else .error (.invalidArgumentError name)

/-- Looking a key up in an appended association list skips a left part
that does not contain it. -/
theorem lookup_append_of_notfound {α β : Type} [BEq α] (l1 l2 : List (α × β))
    (k : α) (h : l1.lookup k = none) : (l1 ++ l2).lookup k = l2.lookup k := by
  induction l1 with
  | nil => rfl
  | cons p l ih =>
    obtain ⟨a, b⟩ := p
    rw [List.cons_append]
    cases hk : k == a
    · simp only [List.lookup, hk] at h ⊢
      exact ih h
    · simp only [List.lookup, hk] at h
      exact absurd h (by simp)

/-- Claim C7: registering an already-present name fails with the
duplicate-tool error; invoking an absent name fails with the
unknown-tool error; otherwise register adds the tool and invoke calls
the registered handler. -/
theorem registry_contract (reg : ToolRegistry) (name : String)
    (spec : List (String × String)) (handler : List (String × ArgValue) → String)
    (args : List (String × ArgValue)) :
    ((reg.tools.lookup name).isSome = true →
      register reg name spec handler = .error (.duplicateToolError name)) ∧
    (reg.tools.lookup name = none →
      invoke reg name args = .error (.unknownToolError name)) ∧
    (reg.tools.lookup name = none →
      ∃ reg2, register reg name spec handler = .ok reg2 ∧
        reg2.tools.lookup name = some ⟨spec, handler⟩) ∧
    (∀ entry, reg.tools.lookup name = some entry →
      validArgs entry.argumentSpec args = true →
      invoke reg name args = .ok (entry.handler args)) := by
  refine ⟨?_, ?_, ?_, ?_⟩
  · intro h
    simp [register, h]
  · intro h
    simp [invoke, h]
  · intro h
    refine ⟨⟨reg.tools ++ [(name, ⟨spec, handler⟩)]⟩, ?_, ?_⟩
    · simp [register, h]
    · rw [lookup_append_of_notfound _ _ _ h]
      simp [List.lookup]
  · intro entry h hval
    simp [invoke, h, hval]

/-- Witness for C7 on a concrete one-tool registry: duplicate
registration fails, invoking a missing name fails, and invoking the
registered tool with valid args calls its handler. -/
theorem registry_contract_witness :
    register (ToolRegistry.mk
        [("get_weather", ToolEntry.mk [("query", "string")] (fun _ => "It works"))])
      "get_weather" [] (fun _ => "") =
      .error (.duplicateToolError "get_weather") ∧
    invoke (ToolRegistry.mk []) "get_weather" [] =
      .error (.unknownToolError "get_weather") ∧
    invoke (ToolRegistry.mk
        [("get_weather", ToolEntry.mk [("query", "string")] (fun _ => "It works"))])
      "get_weather" [("query", ArgValue.strVal "sf")] = .ok "It works" :=
  ⟨(registry_contract
      (ToolRegistry.mk
        [("get_weather", ToolEntry.mk [("query", "string")] (fun _ => "It works"))])
      "get_weather" [] (fun _ => "") []).1 (by decide),
   (registry_contract (ToolRegistry.mk []) "get_weather" [] (fun _ => "") []).2.1 rfl,
   (registry_contract
      (ToolRegistry.mk
        [("get_weather", ToolEntry.mk [("query", "string")] (fun _ => "It works"))])
      "get_weather" [] (fun _ => "") [("query", ArgValue.strVal "sf")]).2.2.2
     (ToolEntry.mk [("query", "string")] (fun _ => "It works")) rfl (by decide)⟩
